import Mathlib

/-!
# Verification of the strava-api activity fetcher

Shallow embedding of `main.go` (the consolidated variant defining
`ensureAccessToken`, `refreshAccessToken`, `fetchActivitiesPage`, `backoff`
and the pagination loop in `main`).  Network traffic is modelled by oracles:
a fetch oracle maps an attempt index to the network event observed on that
attempt, a refresh oracle maps a refresh-call index to the event observed by
that call.  JSON (un)marshalling is modelled by the parse outcome attached to
a response body.  Go `float64` distances are modelled as rationals; Go
`time.Duration` (an `int64` of nanoseconds) is modelled as an integer with
explicit twos-complement wraparound at 64 bits.
-/

/-- Record type `activity` from the source (fields the program uses: ID, Name,
Distance in meters).  `Distance` is a Go `float64`, modelled as `ℚ`. -/
structure activity where
  ID : Int
  Name : String
  Distance : ℚ
deriving DecidableEq

/-- Structure `authResponse`: the OAuth token-grant response shape. -/
structure authResponse where
  AccessToken : String
  ExpiresIn : Int
  TokenType : String
  RefreshToken : String
deriving DecidableEq

/-- Structure `envVars`: configuration loaded from the environment. -/
structure envVars where
  StravaClientId : String
  StravaClientSecret : String
  StravaRefreshToken : String
  StravaAccessToken : String
deriving DecidableEq

/-- Constant `perPage` from the source. -/
def perPage : Nat := 200

/-- Constant `maxRetries` from the source. -/
def maxRetries : Nat := 3

/-- Rate-limit header snapshot (`rateLimitUsage` in the source). -/
structure rateLimitUsage where
  Usage : String
  Limit : String
deriving DecidableEq

/-- ASCII whitespace recognised by `strings.TrimSpace` (space, tab, newline,
carriage return, vertical tab, form feed). -/
def isSpaceChar (c : Char) : Bool :=
  c == ' ' || c == '\t' || c == '\n' || c == '\r' || c.toNat == 11 || c.toNat == 12

/-- Model of Go `strings.TrimSpace`: drop leading and trailing whitespace. -/
def trimSpace (s : String) : String :=
  ⟨((s.data.dropWhile isSpaceChar).reverse.dropWhile isSpaceChar).reverse⟩

/-- Model of Go `strings.EqualFold` restricted to ASCII case folding. -/
def equalFold (a b : String) : Bool :=
  a.data.map Char.toLower == b.data.map Char.toLower

/-- Twos-complement wraparound of an integer into the `int64` range,
modelling the signed-overflow behaviour defined by Go. -/
def wrap64 (x : Int) : Int :=
  (x + 2 ^ 63) % 2 ^ 64 - 2 ^ 63

/-- Value of `time.Second` in nanoseconds (`time.Duration` is an `int64` nanosecond
count). -/
def timeSecond : Int := 1000000000

/-- Function `backoff` from the source:
`d := time.Duration(1 << uint(attempt-1)) * time.Second; if d > 30s { d = 30s }`.
The shift and the multiplication are `int64` operations and wrap. -/
def backoff (attempt : Int) : Int :=
  let a := if attempt < 1 then 1 else attempt
  let shifted := wrap64 ((2 : Int) ^ (a - 1).toNat)
  let d := wrap64 (shifted * timeSecond)
  if 30 * timeSecond < d then 30 * timeSecond else d

/-- A refresh-grant response body: the raw bytes (as a string) together with
the outcome of `json.Unmarshal` into `authResponse`. -/
structure refreshBody where
  raw : String
  parsed : Option authResponse
deriving DecidableEq

/-- Network event observed by one call to the token endpoint. -/
inductive RefreshNet
  | transportError
  | response (status : Nat) (body : refreshBody)
deriving DecidableEq

/-- Outcome of `refreshAccessToken` (its `(string, string, error)` return). -/
inductive RefreshOutcome
  | configError
  | transportFailed
  | httpError (status : Nat) (body : String)
  | parseError
  | ok (accessToken refreshToken : String)
deriving DecidableEq

/-- Result of one `refreshAccessToken` call, instrumented with the number of
network calls issued and the refresh token sent in the form body (if any). -/
structure RefreshResult where
  outcome : RefreshOutcome
  networkCalls : Nat
  sentRefreshToken : Option String
deriving DecidableEq

/-- Function `refreshAccessToken` from the source: blank-credential check before any
network traffic, then a POST whose response is classified exactly as the
source does (`client.Do` error, non-200 status carrying the body text,
unmarshal failure, success). -/
def refreshAccessToken (cfg : envVars) (net : RefreshNet) : RefreshResult :=
  if trimSpace cfg.StravaClientId == "" || trimSpace cfg.StravaClientSecret == "" ||
      trimSpace cfg.StravaRefreshToken == "" then
    ⟨.configError, 0, none⟩
  else
    match net with
    | .transportError => ⟨.transportFailed, 1, some cfg.StravaRefreshToken⟩
    | .response status body =>
      if status ≠ 200 then
        ⟨.httpError status body.raw, 1, some cfg.StravaRefreshToken⟩
      else
        match body.parsed with
        | none => ⟨.parseError, 1, some cfg.StravaRefreshToken⟩
        | some auth => ⟨.ok auth.AccessToken auth.RefreshToken, 1, some cfg.StravaRefreshToken⟩

/-- Network event observed by the cached-token probe request in
`ensureAccessToken`. -/
inductive ProbeNet
  | transportError
  | response (status : Nat)
deriving DecidableEq

/-- Function `ensureAccessToken` from the source; the returned `Nat` counts calls to
`refreshAccessToken`.  Blank cached token: refresh.  Probe transport error or
probe status 401: refresh.  Any other probe outcome: accept the cached pair. -/
def ensureAccessToken (cfg : envVars) (probe : ProbeNet) (net : RefreshNet) :
    RefreshOutcome × Nat :=
  if trimSpace cfg.StravaAccessToken == "" then
    ((refreshAccessToken cfg net).outcome, 1)
  else
    match probe with
    | .transportError => ((refreshAccessToken cfg net).outcome, 1)
    | .response status =>
      if status == 401 then ((refreshAccessToken cfg net).outcome, 1)
      else (.ok cfg.StravaAccessToken cfg.StravaRefreshToken, 0)

/-- An activities-page response body: outcome of `json.Unmarshal` into
`[]activity` (either a parse failure or the decoded page). -/
inductive pageBody
  | malformed
  | parsed (items : List activity)
deriving DecidableEq

/-- Network event observed by one attempt inside `fetchActivitiesPage`:
a `client.Do` error, a response whose body read fails (status and headers
were already recorded), or a full response. -/
inductive FetchAttempt
  | transportError
  | readError (status : Nat) (rl : rateLimitUsage)
  | response (status : Nat) (rl : rateLimitUsage) (body : pageBody)
deriving DecidableEq

/-- Attempt loop of `fetchActivitiesPage`.  `fuel` is the number of attempts
left (`maxRetries` at the top), `attempt` the 1-indexed attempt number used to
index the oracle; `lastStatus`/`lastRL` track the last observed response as in
the source.  Transport and body-read errors back off and retry; 200 parses the
body (a parse failure returns no activities with status 200); 429 backs off
and retries; 401 and any other status return immediately with no activities;
exhaustion returns the last observed status (0 if none). -/
def fetchLoop (oracle : Nat → FetchAttempt) :
    Nat → Nat → Nat → rateLimitUsage → List activity × Nat × rateLimitUsage
  | 0, _, lastStatus, lastRL => ([], lastStatus, lastRL)
  | fuel + 1, attempt, lastStatus, lastRL =>
    match oracle attempt with
    | .transportError => fetchLoop oracle fuel (attempt + 1) lastStatus lastRL
    | .readError s rl => fetchLoop oracle fuel (attempt + 1) s rl
    | .response s rl body =>
      if s == 200 then
        match body with
        | .malformed => ([], s, rl)
        | .parsed items => (items, s, rl)
      else if s == 429 then fetchLoop oracle fuel (attempt + 1) s rl
      else if s == 401 then ([], s, rl)
      else ([], s, rl)

/-- Function `fetchActivitiesPage` from the source, as a function of the per-attempt
network oracle for this call. -/
def fetchActivitiesPage (oracle : Nat → FetchAttempt) :
    List activity × Nat × rateLimitUsage :=
  fetchLoop oracle maxRetries 1 0 ⟨"", ""⟩

/-- Network environment of a whole run: per fetch-call attempt oracles and
per refresh-call events. -/
structure DriverEnv where
  fetch : Nat → Nat → FetchAttempt
  refresh : Nat → RefreshNet

/-- Observable trace of a run: the page index requested by each fetch call in
order, and the refresh token sent by each `refreshAccessToken` call in order. -/
structure DriverTrace where
  fetchPages : List Nat
  refreshInputs : List (Option String)
deriving DecidableEq

/-- Terminal outcome of the pagination loop in `main`.  `done` carries the
accumulated activities and the final access/refresh tokens; the `fatal*`
constructors are the `logger.Fatalf` exits; `outOfFuel` is the modelling
artifact of cutting the (potentially unbounded) loop after `fuel` iterations. -/
inductive DriverOutcome
  | done (all : List activity) (accessToken refreshToken : String)
  | fatalRefresh
  | fatalRetryStatus (status : Nat)
  | fatalStatus (status : Nat)
  | outOfFuel (all : List activity) (page : Nat)
deriving DecidableEq

/-- The pagination loop of `main` (one recursive step per loop iteration).
Status 401: one `refreshAccessToken cfg` call, then one retry of the same
page; a failed refresh or a non-200 retry is fatal; a 200 retry falls through
to the common append.  Status 429: retry the same page.  Any other non-200
status is fatal.  Status 200: append the page; strictly fewer than `perPage`
items ends the loop, otherwise advance to the next page. -/
def driverLoop (cfg : envVars) (env : DriverEnv) :
    Nat → String → String → List activity → Nat → Nat → Nat → DriverTrace →
    DriverOutcome × DriverTrace
  | 0, _, _, all, page, _, _, tr => (.outOfFuel all page, tr)
  | fuel + 1, tok, rtok, all, page, fc, rc, tr =>
    match fetchActivitiesPage (env.fetch fc) with
    | (pageActs, status, _) =>
      if status == 401 then
        let r := refreshAccessToken cfg (env.refresh rc)
        let tr2 : DriverTrace :=
          ⟨tr.fetchPages ++ [page], tr.refreshInputs ++ [r.sentRefreshToken]⟩
        match r.outcome with
        | .ok newTok newRtok =>
          match fetchActivitiesPage (env.fetch (fc + 1)) with
          | (retryActs, retryStatus, _) =>
            let tr3 : DriverTrace := ⟨tr2.fetchPages ++ [page], tr2.refreshInputs⟩
            if retryStatus ≠ 200 then (.fatalRetryStatus retryStatus, tr3)
            else
              let all2 := all ++ retryActs
              if retryActs.length < perPage then (.done all2 newTok newRtok, tr3)
              else driverLoop cfg env fuel newTok newRtok all2 (page + 1) (fc + 2) (rc + 1) tr3
        | _ => (.fatalRefresh, tr2)
      else if status == 429 then
        driverLoop cfg env fuel tok rtok all page (fc + 1) rc
          ⟨tr.fetchPages ++ [page], tr.refreshInputs⟩
      else if status ≠ 200 then
        (.fatalStatus status, ⟨tr.fetchPages ++ [page], tr.refreshInputs⟩)
      else
        let all2 := all ++ pageActs
        let tr1 : DriverTrace := ⟨tr.fetchPages ++ [page], tr.refreshInputs⟩
        if pageActs.length < perPage then (.done all2 tok rtok, tr1)
        else driverLoop cfg env fuel tok rtok all2 (page + 1) (fc + 1) rc tr1

/-- Run the pagination loop from its initial state (`page := 1`, empty
accumulator) with the tokens produced by the authentication phase. -/
def runDriver (cfg : envVars) (env : DriverEnv) (fuel : Nat)
    (tok rtok : String) : DriverOutcome × DriverTrace :=
  driverLoop cfg env fuel tok rtok [] 1 0 0 ⟨[], []⟩

/-- End-of-run rotation notice condition from `main`:
`refreshToken != "" && refreshToken != cfg.StravaRefreshToken`. -/
def rotationNotice (cfg : envVars) (refreshToken : String) : Bool :=
  refreshToken != "" && refreshToken != cfg.StravaRefreshToken

/-- The match predicate from `main`:
`strings.EqualFold(strings.TrimSpace(a.Name), "Desk Treadmill")`. -/
def isDeskTreadmill (a : activity) : Bool :=
  equalFold (trimSpace a.Name) "Desk Treadmill"

/-- The aggregation loop from `main`: count matching activities and sum their
distances (meters). -/
def aggregate (all : List activity) : Nat × ℚ :=
  all.foldl (fun acc a => if isDeskTreadmill a then (acc.1 + 1, acc.2 + a.Distance) else acc)
    (0, 0)

/-- Meters-to-miles conversion applied at presentation time
(`distance * 0.000621371`; the literal is modelled as the exact rational). -/
def metersToMiles (m : ℚ) : ℚ := m * (621371 / 1000000000)

/-- Concatenation of `n` consecutive pages starting at page-array index `k`,
in increasing index order. -/
def concatRange (pages : Nat → List activity) (k : Nat) : Nat → List activity
  | 0 => []
  | n + 1 => pages k ++ concatRange pages (k + 1) n

/-- The list `[page, page+1, ..., page+n-1]`. -/
def pageRange (page : Nat) : Nat → List Nat
  | 0 => []
  | n + 1 => page :: pageRange (page + 1) n

/-! ## Theorems -/

/-- Helper: `wrap64` is the identity on values already in the `int64` range. -/
lemma wrap64_eq_self {x : Int} (h1 : -2 ^ 63 ≤ x) (h2 : x < 2 ^ 63) : wrap64 x = x := by
  unfold wrap64
  rw [Int.emod_eq_of_lt (by omega) (by omega)]
  omega

/-- C9 (counterexample): at attempt index 35 the `int64` nanosecond product
`2^34 * 10^9` overflows, so `backoff 35` is a (large negative) wrapped value
rather than the claimed `min (2^34 s) (30 s) = 30 s`. -/
theorem C9_counterexample :
    backoff 35 ≠ min ((2 : Int) ^ ((35 : Int) - 1).toNat * timeSecond) (30 * timeSecond) := by
  decide

/-- C9 (amended): for every attempt index `n` with `1 ≤ n ≤ 34` (the range in
which the `int64` duration arithmetic does not overflow; the program only ever
uses `n ≤ maxRetries = 3`), `backoff n = min (2^(n-1) seconds) (30 seconds)`;
in particular `backoff 1 = 1 s`, `backoff 2 = 2 s`, `backoff 3 = 4 s` and
`backoff 10 = 30 s` (capped). -/
theorem C9_backoff_capped_exponential :
    (∀ n : Int, 1 ≤ n → n ≤ 34 →
      backoff n = min ((2 : Int) ^ (n - 1).toNat * timeSecond) (30 * timeSecond)) ∧
    backoff 1 = 1 * timeSecond ∧ backoff 2 = 2 * timeSecond ∧
    backoff 3 = 4 * timeSecond ∧ backoff 10 = 30 * timeSecond := by
  refine ⟨?_, by decide, by decide, by decide, by decide⟩
  intro n h1 h34
  have hclamp : ¬ n < 1 := by omega
  have hk : (n - 1).toNat ≤ 33 := by omega
  have hpow : (2 : Int) ^ (n - 1).toNat ≤ 2 ^ 33 := pow_le_pow_right₀ (by norm_num) hk
  have hpos : (0 : Int) < 2 ^ (n - 1).toNat := by positivity
  have e1 : wrap64 ((2 : Int) ^ (n - 1).toNat) = (2 : Int) ^ (n - 1).toNat :=
    wrap64_eq_self (by nlinarith) (by nlinarith)
  have hprod : (2 : Int) ^ (n - 1).toNat * timeSecond ≤ 2 ^ 33 * timeSecond := by
    have hts : (0 : Int) ≤ timeSecond := by norm_num [timeSecond]
    exact mul_le_mul_of_nonneg_right hpow hts
  have hprodpos : (0 : Int) < 2 ^ (n - 1).toNat * timeSecond := by
    have : (0 : Int) < timeSecond := by norm_num [timeSecond]
    positivity
  have e2 : wrap64 ((2 : Int) ^ (n - 1).toNat * timeSecond) =
      (2 : Int) ^ (n - 1).toNat * timeSecond := by
    refine wrap64_eq_self (by nlinarith) ?_
    have : (2 : Int) ^ 33 * timeSecond < 2 ^ 63 := by norm_num [timeSecond]
    omega
  simp only [backoff, if_neg hclamp, e1, e2]
  rcases le_or_lt ((2 : Int) ^ (n - 1).toNat * timeSecond) (30 * timeSecond) with hle | hlt
  · rw [if_neg (not_lt.mpr hle), min_eq_left hle]
  · rw [if_pos hlt, min_eq_right hlt.le]

/-- C9 (witness): the amended theorem evaluated at attempt index 10. -/
theorem C9_witness :
    (1 : Int) ≤ 10 ∧ (10 : Int) ≤ 34 ∧
    backoff 10 = min ((2 : Int) ^ ((10 : Int) - 1).toNat * timeSecond) (30 * timeSecond) :=
  ⟨by decide, by decide, C9_backoff_capped_exponential.1 10 (by decide) (by decide)⟩

/-- C5: if the client id, client secret or refresh token is blank (empty after
whitespace trimming), `refreshAccessToken` fails with the configuration error
and issues no network call. -/
theorem C5_blank_credentials_config_error (cfg : envVars) (net : RefreshNet)
    (h : trimSpace cfg.StravaClientId = "" ∨ trimSpace cfg.StravaClientSecret = "" ∨
      trimSpace cfg.StravaRefreshToken = "") :
    refreshAccessToken cfg net = ⟨.configError, 0, none⟩ := by
  unfold refreshAccessToken
  rcases h with h | h | h <;> simp [h]

/-- C5 (witness): a credentials value with a whitespace-only refresh token. -/
theorem C5_witness :
    (trimSpace "CID" = "" ∨ trimSpace "CSEC" = "" ∨ trimSpace " " = "") ∧
    refreshAccessToken ⟨"CID", "CSEC", " ", "A0"⟩ .transportError = ⟨.configError, 0, none⟩ :=
  ⟨Or.inr (Or.inr (by decide)),
   C5_blank_credentials_config_error ⟨"CID", "CSEC", " ", "A0"⟩ .transportError
     (Or.inr (Or.inr (by decide)))⟩

/-- C6 (counterexample): a refresh-grant response with the 2xx status 201 and
a perfectly parseable token body is rejected by `refreshAccessToken` as an
HTTP error (the source tests `!= 200`, not non-2xx), refuting the claim that
every 2xx response is parsed and its tokens returned. -/
theorem C6_counterexample :
    (refreshAccessToken ⟨"CID", "CSEC", "R0", "A0"⟩
        (.response 201 ⟨"BODY", some ⟨"A1", 21600, "Bearer", "R1"⟩⟩)).outcome =
      .httpError 201 "BODY" ∧
    (refreshAccessToken ⟨"CID", "CSEC", "R0", "A0"⟩
        (.response 201 ⟨"BODY", some ⟨"A1", 21600, "Bearer", "R1"⟩⟩)).outcome ≠
      .ok "A1" "R1" := by
  decide

/-- C6 (amended): for non-blank credentials, every refresh-grant response with
a status other than 200 yields the auth error carrying that status and the
(full, untruncated) response body, and every status-200 response whose body
parses yields the new access and refresh tokens. -/
theorem C6_refresh_status_handling (cfg : envVars) (body : refreshBody) (s : Nat)
    (hid : trimSpace cfg.StravaClientId ≠ "")
    (hsec : trimSpace cfg.StravaClientSecret ≠ "")
    (href : trimSpace cfg.StravaRefreshToken ≠ "") :
    (s ≠ 200 → (refreshAccessToken cfg (.response s body)).outcome = .httpError s body.raw) ∧
    (∀ auth, body.parsed = some auth →
      (refreshAccessToken cfg (.response 200 body)).outcome =
        .ok auth.AccessToken auth.RefreshToken) := by
  constructor
  · intro hs
    unfold refreshAccessToken
    rw [if_neg (by simp [hid, hsec, href])]
    simp [hs]
  · intro auth hauth
    unfold refreshAccessToken
    rw [if_neg (by simp [hid, hsec, href])]
    simp [hauth]

/-- C6 (witness): the amended theorem evaluated at a 500 error response whose
body also happens to parse. -/
theorem C6_witness :
    trimSpace "CID" ≠ "" ∧ trimSpace "CSEC" ≠ "" ∧ trimSpace "R0" ≠ "" ∧
    (((500 : Nat) ≠ 200 →
      (refreshAccessToken ⟨"CID", "CSEC", "R0", "A0"⟩
          (.response 500 ⟨"oops", some ⟨"A1", 21600, "Bearer", "R1"⟩⟩)).outcome =
        .httpError 500 "oops") ∧
    (∀ auth, (some (⟨"A1", 21600, "Bearer", "R1"⟩ : authResponse)) = some auth →
      (refreshAccessToken ⟨"CID", "CSEC", "R0", "A0"⟩
          (.response 200 ⟨"oops", some ⟨"A1", 21600, "Bearer", "R1"⟩⟩)).outcome =
        .ok auth.AccessToken auth.RefreshToken)) :=
  ⟨by decide, by decide, by decide,
   C6_refresh_status_handling ⟨"CID", "CSEC", "R0", "A0"⟩
     ⟨"oops", some ⟨"A1", 21600, "Bearer", "R1"⟩⟩ 500
     (by decide) (by decide) (by decide)⟩

/-- C10: a status-200 refresh-grant response whose body fails to unmarshal
yields an error (not a success with empty tokens), and any successful outcome
of `refreshAccessToken` necessarily came from a status-200 response whose body
parsed, with the returned tokens read from that parsed body. -/
theorem C10_success_requires_parsed_body (cfg : envVars) (net : RefreshNet)
    (body : refreshBody) (a r : String) :
    (trimSpace cfg.StravaClientId ≠ "" → trimSpace cfg.StravaClientSecret ≠ "" →
      trimSpace cfg.StravaRefreshToken ≠ "" → body.parsed = none →
      (refreshAccessToken cfg (.response 200 body)).outcome = .parseError) ∧
    ((refreshAccessToken cfg net).outcome = .ok a r →
      ∃ b auth, net = .response 200 b ∧ b.parsed = some auth ∧
        auth.AccessToken = a ∧ auth.RefreshToken = r) := by
  constructor
  · intro hid hsec href hnone
    unfold refreshAccessToken
    rw [if_neg (by simp [hid, hsec, href])]
    simp [hnone]
  · intro hok
    unfold refreshAccessToken at hok
    by_cases hblank : (trimSpace cfg.StravaClientId == "" ||
        trimSpace cfg.StravaClientSecret == "" || trimSpace cfg.StravaRefreshToken == "") = true
    · rw [if_pos hblank] at hok
      simp at hok
    · rw [if_neg hblank] at hok
      match net with
      | .transportError => simp at hok
      | .response s body' =>
        by_cases hs : s = 200
        · subst hs
          cases hp : body'.parsed with
          | none => simp [hp] at hok
          | some auth =>
            simp only [hp, ne_eq, not_true_eq_false, if_false, ite_self,
              RefreshOutcome.ok.injEq] at hok
            exact ⟨body', auth, rfl, hp, hok.1, hok.2⟩
        · simp [hs] at hok

/-- C10 (witness): a malformed 200 body yields the parse error, and a
successful call is traced back to its parsed body. -/
theorem C10_witness :
    (trimSpace "CID" ≠ "" → trimSpace "CSEC" ≠ "" → trimSpace "R0" ≠ "" →
      (refreshBody.mk "garbage" none).parsed = none →
      (refreshAccessToken ⟨"CID", "CSEC", "R0", "A0"⟩
          (.response 200 ⟨"garbage", none⟩)).outcome = .parseError) ∧
    ((refreshAccessToken ⟨"CID", "CSEC", "R0", "A0"⟩ .transportError).outcome = .ok "x" "y" →
      ∃ b auth, RefreshNet.transportError = .response 200 b ∧ b.parsed = some auth ∧
        auth.AccessToken = "x" ∧ auth.RefreshToken = "y") :=
  C10_success_requires_parsed_body ⟨"CID", "CSEC", "R0", "A0"⟩ .transportError
    ⟨"garbage", none⟩ "x" "y"

/-- C4 (counterexample): a credentials value whose cached access token is the
non-empty string consisting of a single space.  The claim requires the probe
to decide (a 200 probe keeps the cached pair, no refresh call), but the source
trims the token first and goes straight to refresh, returning the refreshed
tokens with one refresh call even though the probe would have returned 200. -/
theorem C4_counterexample :
    (envVars.mk "CID" "CSEC" "R0" " ").StravaAccessToken ≠ "" ∧
    ensureAccessToken ⟨"CID", "CSEC", "R0", " "⟩ (.response 200)
        (.response 200 ⟨"", some ⟨"A2", 21600, "Bearer", "R2"⟩⟩) = (.ok "A2" "R2", 1) ∧
    ensureAccessToken ⟨"CID", "CSEC", "R0", " "⟩ (.response 200)
        (.response 200 ⟨"", some ⟨"A2", 21600, "Bearer", "R2"⟩⟩) ≠
      (.ok (envVars.mk "CID" "CSEC" "R0" " ").StravaAccessToken
        (envVars.mk "CID" "CSEC" "R0" " ").StravaRefreshToken, 0) := by
  decide

/-- C4 (amended): for every credentials value whose cached access token is
non-blank (non-empty after whitespace trimming): a probe response with any
status other than 401 keeps the cached access and refresh tokens with no
refresh call; a probe 401 or a probe transport error performs exactly one
refresh call and returns its outcome. -/
theorem C4_probe_decides_refresh (cfg : envVars) (net : RefreshNet)
    (hat : trimSpace cfg.StravaAccessToken ≠ "") :
    (∀ s, s ≠ 401 → ensureAccessToken cfg (.response s) net =
      (.ok cfg.StravaAccessToken cfg.StravaRefreshToken, 0)) ∧
    ensureAccessToken cfg (.response 401) net = ((refreshAccessToken cfg net).outcome, 1) ∧
    ensureAccessToken cfg .transportError net = ((refreshAccessToken cfg net).outcome, 1) := by
  refine ⟨?_, ?_, ?_⟩
  · intro s hs
    unfold ensureAccessToken
    rw [if_neg (by simp [hat])]
    simp [hs]
  · unfold ensureAccessToken
    rw [if_neg (by simp [hat])]
    simp
  · unfold ensureAccessToken
    rw [if_neg (by simp [hat])]

/-- C4 (witness): the amended theorem evaluated at a concrete non-blank token
with a 200 probe and, separately, a 401 probe. -/
theorem C4_witness :
    trimSpace "A0" ≠ "" ∧
    ((∀ s, s ≠ 401 → ensureAccessToken ⟨"CID", "CSEC", "R0", "A0"⟩ (.response s)
        (.response 200 ⟨"", some ⟨"A2", 21600, "Bearer", "R2"⟩⟩) = (.ok "A0" "R0", 0)) ∧
    ensureAccessToken ⟨"CID", "CSEC", "R0", "A0"⟩ (.response 401)
        (.response 200 ⟨"", some ⟨"A2", 21600, "Bearer", "R2"⟩⟩) =
      ((refreshAccessToken ⟨"CID", "CSEC", "R0", "A0"⟩
          (.response 200 ⟨"", some ⟨"A2", 21600, "Bearer", "R2"⟩⟩)).outcome, 1) ∧
    ensureAccessToken ⟨"CID", "CSEC", "R0", "A0"⟩ .transportError
        (.response 200 ⟨"", some ⟨"A2", 21600, "Bearer", "R2"⟩⟩) =
      ((refreshAccessToken ⟨"CID", "CSEC", "R0", "A0"⟩
          (.response 200 ⟨"", some ⟨"A2", 21600, "Bearer", "R2"⟩⟩)).outcome, 1)) :=
  ⟨by decide,
   C4_probe_decides_refresh ⟨"CID", "CSEC", "R0", "A0"⟩
     (.response 200 ⟨"", some ⟨"A2", 21600, "Bearer", "R2"⟩⟩) (by decide)⟩

/-- Helper: the aggregation fold, started from any accumulator, adds the
count and distance sum of the matching activities. -/
lemma aggregate_foldl (l : List activity) : ∀ (c : Nat) (d : ℚ),
    l.foldl (fun acc a => if isDeskTreadmill a then (acc.1 + 1, acc.2 + a.Distance) else acc)
        (c, d) =
      (c + (l.filter isDeskTreadmill).length,
       d + ((l.filter isDeskTreadmill).map activity.Distance).sum) := by
  induction l with
  | nil => intro c d; simp
  | cons a l ih =>
    intro c d
    by_cases h : isDeskTreadmill a
    · simp only [List.foldl_cons, h, if_true, List.filter_cons, List.map_cons, List.sum_cons, ih]
      refine Prod.ext ?_ ?_
      · simp only [List.length_cons]
        omega
      · simp only
        ring
    · simp only [List.foldl_cons, h, if_false, List.filter_cons, ih]
      simp [h]

/-- The three-activity example from the specification. -/
def exampleActivities : List activity :=
  [⟨1, "Desk Treadmill", 1000⟩, ⟨2, "desk treadmill ", 500⟩, ⟨3, "Run", 5000⟩]

/-- C8: the aggregation counts and sums exactly the activities whose trimmed
name equals "Desk Treadmill" case-insensitively; on the example list it gives
matchCount 2 and 1500 meters, and the presentation-time conversion gives
1500 * 0.000621371 = 0.9320565 miles, within 0.001 of 0.932. -/
theorem C8_aggregate_desk_treadmill :
    (∀ l : List activity, aggregate l =
      ((l.filter isDeskTreadmill).length,
       ((l.filter isDeskTreadmill).map activity.Distance).sum)) ∧
    aggregate exampleActivities = (2, 1500) ∧
    metersToMiles (aggregate exampleActivities).2 = 9320565 / 10000000 ∧
    |metersToMiles (aggregate exampleActivities).2 - 932 / 1000| < 1 / 1000 := by
  have hgen : ∀ l : List activity, aggregate l =
      ((l.filter isDeskTreadmill).length,
       ((l.filter isDeskTreadmill).map activity.Distance).sum) := by
    intro l
    unfold aggregate
    rw [aggregate_foldl l 0 0]
    simp
  have hex : aggregate exampleActivities = (2, 1500) := by
    rw [hgen]
    have hfilter : exampleActivities.filter isDeskTreadmill =
        [⟨1, "Desk Treadmill", 1000⟩, ⟨2, "desk treadmill ", 500⟩] := by decide
    rw [hfilter]
    norm_num
  refine ⟨hgen, hex, ?_, ?_⟩
  · rw [hex]
    norm_num [metersToMiles]
  · rw [hex]
    rw [show |metersToMiles (2, (1500 : ℚ)).2 - 932 / 1000| = |(1500 : ℚ) * (621371 / 1000000000) - 932 / 1000| from rfl]
    rw [abs_sub_lt_iff]
    norm_num

set_option maxRecDepth 10000

/-- C3: whenever a fetch call observes status 401 and the subsequent refresh
succeeds, the driver performs exactly one refresh (one entry appended to the
refresh trace) and retries the same page index exactly once (the page appears
exactly twice more in the fetch trace); a retry status other than 200 is fatal
with no further attempt, and a 200 retry appends the retried page activities
exactly once before continuing (or finishing on a short page). -/
theorem C3_single_refresh_single_retry (cfg : envVars) (env : DriverEnv)
    (fuel page fc rc : Nat) (tok rtok newTok newRtok : String)
    (all acts0 retryActs : List activity) (tr : DriverTrace)
    (rl rl' : rateLimitUsage) (s : Nat)
    (h401 : fetchActivitiesPage (env.fetch fc) = (acts0, 401, rl))
    (hrefresh : (refreshAccessToken cfg (env.refresh rc)).outcome = .ok newTok newRtok)
    (hretry : fetchActivitiesPage (env.fetch (fc + 1)) = (retryActs, s, rl')) :
    driverLoop cfg env (fuel + 1) tok rtok all page fc rc tr =
      if s ≠ 200 then
        (.fatalRetryStatus s,
         ⟨tr.fetchPages ++ [page, page],
          tr.refreshInputs ++ [(refreshAccessToken cfg (env.refresh rc)).sentRefreshToken]⟩)
      else if retryActs.length < perPage then
        (.done (all ++ retryActs) newTok newRtok,
         ⟨tr.fetchPages ++ [page, page],
          tr.refreshInputs ++ [(refreshAccessToken cfg (env.refresh rc)).sentRefreshToken]⟩)
      else
        driverLoop cfg env fuel newTok newRtok (all ++ retryActs) (page + 1) (fc + 2) (rc + 1)
          ⟨tr.fetchPages ++ [page, page],
           tr.refreshInputs ++ [(refreshAccessToken cfg (env.refresh rc)).sentRefreshToken]⟩ := by
  simp only [driverLoop, h401, hrefresh, hretry]
  by_cases hs : s ≠ 200
  · simp [hs, List.append_assoc]
  · simp only [hs, if_false, ite_false, if_neg hs]
    by_cases hlen : retryActs.length < perPage
    · simp [hlen, List.append_assoc]
    · simp [hlen, List.append_assoc]

/-- Helper: from any driver state, a run of consecutive status-200 fetches in
which pages `fc..fc+m-1` are full and page `fc+m` is short ends in `done`,
appending the pages in increasing order and requesting consecutive page
indices, with no refresh activity. -/
lemma driverLoop_all200 (cfg : envVars) (env : DriverEnv) (rl : rateLimitUsage)
    (pages : Nat → List activity) : ∀ (m fc page fuel : Nat) (tok rtok : String)
    (all : List activity) (rc : Nat) (tr : DriverTrace),
    (∀ j, j ≤ m → fetchActivitiesPage (env.fetch (fc + j)) = (pages (fc + j), 200, rl)) →
    (∀ j, j < m → (pages (fc + j)).length = perPage) →
    (pages (fc + m)).length < perPage →
    m < fuel →
    driverLoop cfg env fuel tok rtok all page fc rc tr =
      (.done (all ++ concatRange pages fc (m + 1)) tok rtok,
       ⟨tr.fetchPages ++ pageRange page (m + 1), tr.refreshInputs⟩) := by
  intro m
  induction m with
  | zero =>
    intro fc page fuel tok rtok all rc tr hres hfull hshort hfuel
    obtain ⟨fuel, rfl⟩ : ∃ f, fuel = f + 1 := ⟨fuel - 1, by omega⟩
    have h0 := hres 0 (Nat.le_refl 0)
    rw [Nat.add_zero] at h0
    rw [Nat.add_zero] at hshort
    simp only [driverLoop, h0]
    simp [hshort, concatRange, pageRange]
  | succ m ih =>
    intro fc page fuel tok rtok all rc tr hres hfull hshort hfuel
    obtain ⟨fuel, rfl⟩ : ∃ f, fuel = f + 1 := ⟨fuel - 1, by omega⟩
    have h0 := hres 0 (Nat.zero_le _)
    rw [Nat.add_zero] at h0
    have hfull0 := hfull 0 (Nat.succ_pos m)
    rw [Nat.add_zero] at hfull0
    simp only [driverLoop, h0]
    rw [if_neg (show ¬((200 == 401) = true) by decide)]
    rw [if_neg (show ¬((200 == 429) = true) by decide)]
    rw [if_neg (show ¬((200 : Nat) ≠ 200) by decide)]
    rw [if_neg (show ¬((pages fc).length < perPage) from by
      rw [hfull0]; exact lt_irrefl perPage)]
    rw [ih (fc + 1) (page + 1) fuel tok rtok (all ++ pages fc) rc
      ⟨tr.fetchPages ++ [page], tr.refreshInputs⟩
      (fun j hj => by
        rw [show fc + 1 + j = fc + (j + 1) by omega]
        exact hres (j + 1) (by omega))
      (fun j hj => by
        rw [show fc + 1 + j = fc + (j + 1) by omega]
        exact hfull (j + 1) (by omega))
      (by rw [show fc + 1 + m = fc + (m + 1) by omega]; exact hshort)
      (by omega)]
    simp [concatRange, pageRange, List.append_assoc]

/-- C1: if every fetch call up to `m` returns status 200 with the items of
pages `1..m+1`, pages `1..m` are full (`perPage` items) and page `m+1` is the
first short one, the driver terminates `done` after exactly `m+1` fetch calls
(pages requested in increasing order `1..m+1`), accumulating the concatenation
of the pages in increasing page-index order, with no refresh calls. -/
theorem C1_pagination_concatenates_until_short_page (cfg : envVars) (env : DriverEnv)
    (rl : rateLimitUsage) (pages : Nat → List activity) (tok rtok : String) (m fuel : Nat)
    (hres : ∀ j, j ≤ m → fetchActivitiesPage (env.fetch j) = (pages j, 200, rl))
    (hfull : ∀ j, j < m → (pages j).length = perPage)
    (hshort : (pages m).length < perPage)
    (hfuel : m < fuel) :
    runDriver cfg env fuel tok rtok =
      (.done (concatRange pages 0 (m + 1)) tok rtok, ⟨pageRange 1 (m + 1), []⟩) := by
  have h := driverLoop_all200 cfg env rl pages m 0 1 fuel tok rtok [] 0 ⟨[], []⟩
    (fun j hj => by simpa using hres j hj)
    (fun j hj => by simpa using hfull j hj)
    (by simpa using hshort)
    hfuel
  simpa [runDriver] using h

/-- A generic activity used to populate the concrete page-size scenarios. -/
def act0 : activity := ⟨0, "Run", 0⟩

/-- Default (empty) rate-limit snapshot used by concrete scenarios. -/
def rl0 : rateLimitUsage := ⟨"", ""⟩

/-- Concrete credentials used by the run scenarios. -/
def cfg0 : envVars := ⟨"CID", "CSEC", "R0", "A0"⟩

/-- Page sizes [200, 200, 150]. -/
def pagesA : Nat → List activity :=
  fun j => [List.replicate 200 act0, List.replicate 200 act0,
    List.replicate 150 act0].getD j []

/-- Environment serving the [200, 200, 150] pages, all with status 200. -/
def envA : DriverEnv :=
  ⟨fun k _ => .response 200 rl0 (.parsed (pagesA k)), fun _ => .transportError⟩

/-- Page sizes [200, 200, 200, 0]. -/
def pagesB : Nat → List activity :=
  fun j => [List.replicate 200 act0, List.replicate 200 act0,
    List.replicate 200 act0, []].getD j []

/-- Environment serving the [200, 200, 200, 0] pages, all with status 200. -/
def envB : DriverEnv :=
  ⟨fun k _ => .response 200 rl0 (.parsed (pagesB k)), fun _ => .transportError⟩

/-- C1 (witness): page sizes [200, 200, 150] give DONE after exactly 3 fetch
calls with 550 activities; page sizes [200, 200, 200, 0] give DONE after 4
fetch calls with 600 activities. -/
theorem C1_witness :
    (runDriver cfg0 envA 3 "A0" "R0" =
      (.done (concatRange pagesA 0 3) "A0" "R0", ⟨pageRange 1 3, []⟩) ∧
     (concatRange pagesA 0 3).length = 550 ∧ pageRange 1 3 = [1, 2, 3]) ∧
    (runDriver cfg0 envB 4 "A0" "R0" =
      (.done (concatRange pagesB 0 4) "A0" "R0", ⟨pageRange 1 4, []⟩) ∧
     (concatRange pagesB 0 4).length = 600 ∧ pageRange 1 4 = [1, 2, 3, 4]) := by
  constructor
  · refine ⟨C1_pagination_concatenates_until_short_page cfg0 envA rl0 pagesA "A0" "R0" 2 3
      (fun j _ => rfl)
      (by intro j hj; interval_cases j <;> decide)
      (by decide) (by omega), by decide, by decide⟩
  · refine ⟨C1_pagination_concatenates_until_short_page cfg0 envB rl0 pagesB "A0" "R0" 3 4
      (fun j _ => rfl)
      (by intro j hj; interval_cases j <;> decide)
      (by decide) (by omega), by decide, by decide⟩

/-- Environment for the single-401 scenario: the first fetch call observes
401, the refresh rotates to a fresh token, the retry of the same page returns
200 with 80 items (the final short page). -/
def envC : DriverEnv :=
  ⟨fun k _ => if k == 0 then .response 401 rl0 .malformed
    else .response 200 rl0 (.parsed (List.replicate 80 act0)),
   fun _ => .response 200 ⟨"", some ⟨"A1", 21600, "Bearer", "R1"⟩⟩⟩

/-- C3 (witness): a single 401 mid-run followed by a successful refresh and a
successful same-page retry returning 80 items completes with DONE, the 80
items appended exactly once, one refresh recorded, and page 1 fetched exactly
twice. -/
theorem C3_witness :
    fetchActivitiesPage (envC.fetch 0) = ([], 401, rl0) ∧
    (refreshAccessToken cfg0 (envC.refresh 0)).outcome = .ok "A1" "R1" ∧
    fetchActivitiesPage (envC.fetch 1) = (List.replicate 80 act0, 200, rl0) ∧
    driverLoop cfg0 envC 1 "A0" "R0" [] 1 0 0 ⟨[], []⟩ =
      (.done (List.replicate 80 act0) "A1" "R1", ⟨[1, 1], [some "R0"]⟩) := by
  refine ⟨by decide, by decide, by decide, ?_⟩
  have h := C3_single_refresh_single_retry cfg0 envC 0 1 0 0 "A0" "R0" "A1" "R1"
    [] [] (List.replicate 80 act0) ⟨[], []⟩ rl0 rl0 200
    (by decide) (by decide) (by decide)
  simpa using h.trans (by decide)

/-- Environment for the malformed-200 scenario: page 1 answers with status
200 and a body that fails to unmarshal. -/
def envD : DriverEnv :=
  ⟨fun _ _ => .response 200 rl0 .malformed, fun _ => .transportError⟩

/-- C2 (code behaviour at the failing input): on a status-200 response whose
body fails to parse, `fetchActivitiesPage` does return no activities with
status 200 (first half of the claim), but the caller then treats the empty
result as a short final page and terminates DONE with an empty collection —
it does not abort with a fatal protocol error. -/
theorem C2_malformed_200_terminates_done :
    fetchActivitiesPage (envD.fetch 0) = ([], 200, rl0) ∧
    runDriver cfg0 envD 1 "A0" "R0" = (.done [] "A0" "R0", ⟨[1], []⟩) := by
  decide

/-- Environment for the rotation scenario: a 401 on page 1 triggers a refresh
that rotates the refresh token from R0 to R1; the retry returns a full page;
a 401 on page 2 triggers a second refresh, which rotates to R2; the retry
returns a short page. -/
def envE : DriverEnv where
  fetch k := fun _ =>
    if k == 0 then .response 401 rl0 .malformed
    else if k == 1 then .response 200 rl0 (.parsed (List.replicate 200 act0))
    else if k == 2 then .response 401 rl0 .malformed
    else .response 200 rl0 (.parsed (List.replicate 10 act0))
  refresh j :=
    if j == 0 then .response 200 ⟨"", some ⟨"A1", 21600, "Bearer", "R1"⟩⟩
    else .response 200 ⟨"", some ⟨"A2", 21600, "Bearer", "R2"⟩⟩

/-- C7 (code behaviour at the failing input): after the first refresh rotates
the refresh token to R1, the second refresh call still sends the original
configured token R0 (the trace records [R0, R0], never R1), because
`refreshAccessToken` always reads `cfg.StravaRefreshToken`; the end-of-run
rotation notice does fire.  The claim that every subsequent refresh uses the
rotated token fails. -/
theorem C7_rotated_token_not_used_for_refresh :
    (refreshAccessToken cfg0 (envE.refresh 0)).outcome = .ok "A1" "R1" ∧
    runDriver cfg0 envE 2 "A0" "R0" =
      (.done (List.replicate 200 act0 ++ List.replicate 10 act0) "A2" "R2",
       ⟨[1, 1, 2, 2], [some "R0", some "R0"]⟩) ∧
    some "R0" ≠ some "R1" ∧
    rotationNotice cfg0 "R2" = true := by
  refine ⟨by decide, by rfl, by decide, by decide⟩
